import Mathlib

/-!
Shallow embedding of the `pro-smm-panel-v2` repository and proofs about it.

The repository contains three independent backend variants:

* `Hexachats` — the in-memory chat server (`src/server.js`): users, contacts,
  per-participant duplicated chat storage, statuses and call records.
* `PanelA` — the file-backed express SMM panel (`src/unnamed/part_000`):
  signup/login, service catalog, order placement with admin e-mail, admin
  status update.
* `PanelB` — the serverless-function-per-route SMM panel
  (`src/api/...`, `src/unnamed/part_001`): file-backed JSON helpers
  (`readJSON`/`writeJSON`), signup, login, session query (`me`), and the
  order-placement handler.

JavaScript objects used as keyed maps are modelled as total functions with a
default value (an absent key and an empty list are observationally equal in
every handler of the source).  External effects (bcrypt hashing/comparison,
mail delivery, generated ids, clocks) are passed in as parameters, which is
how the single-threaded handlers consume them.
-/

namespace Hexachats

/-- Chat message as stored by `src/server.js` (`sender`, `message`,
`timestamp`, `read`). -/
structure ChatMsg where
  sender : String
  message : String
  timestamp : Nat
  read : Bool
deriving Repr, DecidableEq

/-- User settings object (`theme`, `online`, `lastSeen`). -/
structure Settings where
  theme : String
  online : Bool
  lastSeen : Nat
deriving Repr, DecidableEq

/-- User record created at signup in `src/server.js`. -/
structure User where
  id : String
  firstName : String
  lastName : String
  password : String
  bio : String
  avatar : String
  phone : String
  email : String
  settings : Settings
deriving Repr, DecidableEq

/-- Status record (`media`, `caption`, `type`, `timestamp`). -/
structure Status where
  media : String
  caption : String
  ty : String
  timestamp : Nat
deriving Repr, DecidableEq

/-- Call record (`contactId`, `type`, `direction`, `missed`, `timestamp`). -/
structure CallRec where
  contactId : String
  ty : String
  direction : String
  missed : Bool
  timestamp : Nat
deriving Repr, DecidableEq

/-- The process-wide mutable state of `src/server.js`: the `users`,
`contacts`, `chats`, `statuses` and `calls` objects.  Objects keyed by user
id are total functions; `chats` is keyed twice (owner, then contact). -/
structure HState where
  users : String → Option User
  contacts : String → List String
  chats : String → String → List ChatMsg
  statuses : String → List Status
  calls : String → List CallRec

/-- Point update of a string-keyed map. -/
def upd {α : Type} (m : String → α) (k : String) (v : α) : String → α :=
  fun x => if x = k then v else m x

/-- Point update of a doubly-keyed map. -/
def upd2 {α : Type} (m : String → String → α) (a b : String) (v : α) :
    String → String → α :=
  fun x y => if x = a ∧ y = b then v else m x y

/-- JavaScript truthiness test for an optional string field: `!x` is true
exactly when the field is absent or the empty string. -/
def falsy : Option String → Bool
  | none => true
  | some s => s == ""

/-- The login id format check `/^HX-\d{9}$/` of `src/server.js`, stated
structurally on the character list: the prefix `HX-` followed by exactly
nine digits. -/
def isHexaId (id : String) : Bool :=
  id.length == 12 && id.data.take 3 == ['H', 'X', '-'] && (id.data.drop 3).all Char.isDigit

/-- Handler for `POST /api/signup` (`src/server.js` lines 51-100).  `id` is
the generated Hexachats id and `hashed` the bcrypt hash of the password,
both produced outside the pure handler logic. -/
def signup (s : HState) (firstName lastName password : Option String)
    (id hashed : String) (now : Nat) : HState × Nat :=
  if falsy firstName || falsy lastName || falsy password then (s, 400)
  else if (password.getD "").length < 6 then (s, 400)
  else
    let u : User :=
      { id := id
        firstName := firstName.getD ""
        lastName := lastName.getD ""
        password := hashed
        bio := "Hey there! I'm using Hexachats."
        avatar := "https://ui-avatars.com/api/?name=" ++ firstName.getD "" ++
          "+" ++ lastName.getD "" ++ "&background=random"
        phone := ""
        email := ""
        settings := { theme := "light", online := true, lastSeen := now } }
    ({ users := upd s.users id (some u)
       contacts := upd s.contacts id []
       chats := fun x y => if x = id then [] else s.chats x y
       statuses := upd s.statuses id []
       calls := upd s.calls id [] }, 201)

/-- Handler for `POST /api/login` (`src/server.js` lines 103-149).  `cmp`
models `bcrypt.compare` on (supplied password, stored hash). -/
def login (s : HState) (id password : Option String)
    (cmp : String → String → Bool) (now : Nat) : HState × Nat :=
  if falsy id || falsy password then (s, 400)
  else if ! isHexaId (id.getD "") then (s, 400)
  else
    match s.users (id.getD "") with
    | none => (s, 404)
    | some u =>
      if ! cmp (password.getD "") u.password then (s, 401)
      else
        let u1 : User :=
          { u with settings := { u.settings with online := true, lastSeen := now } }
        ({ s with users := upd s.users (id.getD "") (some u1) }, 200)

/-- Body of `PUT /api/user/:id`. -/
structure ProfileBody where
  firstName : Option String
  lastName : Option String
  bio : Option String
  phone : Option String
  email : Option String
  avatar : Option String
  password : Option String

/-- The per-field conditional assignment `if (field) users[id].field = field`. -/
def app (cur : String) (v : Option String) : String :=
  if falsy v then cur else v.getD cur

/-- Handler for `PUT /api/user/:id` (`src/server.js` lines 174-203).  Note
that in the source the six profile fields are assigned in place before the
password length check runs, so a short password yields a 400 response with
the other field updates already committed. -/
def updateUser (s : HState) (userId : String) (b : ProfileBody)
    (hashed : String) : HState × Nat :=
  match s.users userId with
  | none => (s, 404)
  | some u =>
    let u1 : User :=
      { u with
        firstName := app u.firstName b.firstName
        lastName := app u.lastName b.lastName
        bio := app u.bio b.bio
        phone := app u.phone b.phone
        email := app u.email b.email
        avatar := app u.avatar b.avatar }
    if falsy b.password then
      ({ s with users := upd s.users userId (some u1) }, 200)
    else if (b.password.getD "").length < 6 then
      ({ s with users := upd s.users userId (some u1) }, 400)
    else
      ({ s with users := upd s.users userId (some { u1 with password := hashed }) }, 200)

/-- Handler for `POST /api/user/:userId/contacts` (`src/server.js` lines
206-231).  The chat-initialisation step of the source only replaces an
absent entry by `[]`, which is the identity in this model. -/
def addContact (s : HState) (userId contactId : String) : HState × Nat :=
  match s.users userId, s.users contactId with
  | some _, some _ =>
    if userId = contactId then (s, 400)
    else if contactId ∈ s.contacts userId then (s, 400)
    else ({ s with contacts := upd s.contacts userId (s.contacts userId ++ [contactId]) }, 200)
  | _, _ => (s, 404)

/-- JavaScript `String.prototype.trim` as used on the message body: strip
leading and trailing whitespace.  Defined structurally on the character list
so that it is kernel-computable. -/
def jsTrim (s : String) : String :=
  String.mk (((s.data.dropWhile Char.isWhitespace).reverse.dropWhile Char.isWhitespace).reverse)

/-- Handler for `POST /api/user/:userId/chats/:contactId` (`src/server.js`
lines 269-312): build one message object from the trimmed text and append it
to the sender's list for the contact and to the contact's list for the
sender (the recipient copy `{ ...newMessage, read: false }` is field-for-field
identical to the sender copy). -/
def sendMessage (s : HState) (userId contactId : String)
    (message : Option String) (timestamp : Nat) : HState × Nat :=
  match s.users userId, s.users contactId with
  | some _, some _ =>
    match message with
    | none => (s, 400)
    | some m =>
      if jsTrim m = "" then (s, 400)
      else
        let newMessage : ChatMsg :=
          { sender := userId, message := jsTrim m, timestamp := timestamp, read := false }
        let c1 := upd2 s.chats userId contactId (s.chats userId contactId ++ [newMessage])
        let c2 := upd2 c1 contactId userId (c1 contactId userId ++ [newMessage])
        ({ s with chats := c2 }, 200)
  | _, _ => (s, 404)

/-- The per-message update of the mark-as-read loop: set `read := true` on
messages sent by the contact that are not yet read. -/
def markReadMsg (contactId : String) (m : ChatMsg) : ChatMsg :=
  if m.sender = contactId ∧ ! m.read then { m with read := true } else m

/-- Handler for `PUT /api/user/:userId/chats/:contactId/read`
(`src/server.js` lines 315-332). -/
def markRead (s : HState) (userId contactId : String) : HState × Nat :=
  match s.users userId, s.users contactId with
  | some _, some _ =>
    let l := (s.chats userId contactId).map (markReadMsg contactId)
    ({ s with chats := upd2 s.chats userId contactId l }, 200)
  | _, _ => (s, 404)

/-- Handler for `POST /api/user/:userId/status` (`src/server.js` lines
335-368). -/
def addStatus (s : HState) (userId : String) (media caption ty : Option String)
    (now : Nat) : HState × Nat :=
  match s.users userId with
  | none => (s, 404)
  | some _ =>
    if falsy media then (s, 400)
    else
      let st : Status :=
        { media := media.getD "", caption := caption.getD "",
          ty := ty.getD "image", timestamp := now }
      ({ s with statuses := upd s.statuses userId (s.statuses userId ++ [st]) }, 200)

/-- Handler for `POST /api/user/:userId/calls` (`src/server.js` lines
382-401). -/
def addCall (s : HState) (userId contactId ty direction : String)
    (missed : Option Bool) (now : Nat) : HState × Nat :=
  match s.users userId, s.users contactId with
  | some _, some _ =>
    let c : CallRec :=
      { contactId := contactId, ty := ty, direction := direction,
        missed := missed.getD false, timestamp := now }
    ({ s with calls := upd s.calls userId (s.calls userId ++ [c]) }, 200)
  | _, _ => (s, 404)

/-- One state-mutating HTTP request of the chat server (the GET routes do
not modify the state and are omitted). -/
inductive HOp where
  | opSignup (firstName lastName password : Option String) (id hashed : String) (now : Nat)
  | opLogin (id password : Option String) (cmp : String → String → Bool) (now : Nat)
  | opUpdateUser (id : String) (b : ProfileBody) (hashed : String)
  | opAddContact (u c : String)
  | opSendMessage (u c : String) (message : Option String) (ts : Nat)
  | opMarkRead (u c : String)
  | opAddStatus (u : String) (media caption ty : Option String) (now : Nat)
  | opAddCall (u c ty direction : String) (missed : Option Bool) (now : Nat)

/-- State transition of one request. -/
def applyOp (s : HState) : HOp → HState
  | .opSignup f l p id h now => (signup s f l p id h now).1
  | .opLogin id p cmp now => (login s id p cmp now).1
  | .opUpdateUser id b h => (updateUser s id b h).1
  | .opAddContact u c => (addContact s u c).1
  | .opSendMessage u c m ts => (sendMessage s u c m ts).1
  | .opMarkRead u c => (markRead s u c).1
  | .opAddStatus u m cap ty now => (addStatus s u m cap ty now).1
  | .opAddCall u c ty d mi now => (addCall s u c ty d mi now).1

/-- The one id generated outside the handler that an operation installs: a
signup whose random id collides with an existing user would overwrite that
user's data, so claims about a surviving user `U` assume the generated id is
not `U` (in the source the id is a fresh random `HX-` number). -/
def sparesUser (U : String) : HOp → Prop
  | .opSignup _ _ _ id _ _ => id ≠ U
  | _ => True

end Hexachats

namespace PanelA

/-- Session user stored by the file-backed panel (`src/unnamed/part_000`). -/
structure SessUser where
  id : String
  username : String
  name : String
  email : String
  phone : String
deriving Repr, DecidableEq

/-- Persisted user record of `db/users.json`. -/
structure PUser where
  id : String
  username : String
  name : String
  email : String
  phone : String
  password : String
  createdAt : String
deriving Repr, DecidableEq

/-- One service of a platform block in `db/services.json`.  Prices are
floating-point numbers in the source; they are modelled as rationals, which
is exact for every literal the arithmetic of the panel produces. -/
structure ServiceItem where
  name : String
  price : ℚ
  active : Bool
deriving Repr, DecidableEq

/-- Platform block of `db/services.json`. -/
structure PlatformBlock where
  platform : String
  services : List ServiceItem
deriving Repr, DecidableEq

/-- Stored screenshot metadata of an uploaded proof of payment. -/
structure Screenshot where
  filename : String
  storedAs : String
  storedPath : String
deriving Repr, DecidableEq

/-- The user snapshot embedded in an order. -/
structure OrderUser where
  username : String
  name : String
  email : String
  phone : String
deriving Repr, DecidableEq

/-- Order record written to `db/orders.json` by `POST /api/order`. -/
structure AOrder where
  id : String
  userId : String
  user : OrderUser
  platform : String
  service : String
  quantity : Nat
  price : ℚ
  payment : String
  link : String
  note : String
  screenshot : Option Screenshot
  status : String
  createdAt : String
deriving Repr, DecidableEq

/-- The three JSON files of the panel's `db` directory. -/
structure PState where
  users : List PUser
  services : List PlatformBlock
  orders : List AOrder
deriving Repr, DecidableEq

/-- JavaScript `String.prototype.toLowerCase` as used by the panel's
case-insensitive comparisons, defined structurally on the character list so
that it is kernel-computable. -/
def jsToLower (s : String) : String := String.mk (s.data.map Char.toLower)

/-- JavaScript presence test: a body field passes `if (!field) ...` exactly
when it is present and not the empty string. -/
def present : Option String → Option String
  | none => none
  | some s => if s = "" then none else some s

/-- Handler for `POST /api/signup` (`src/unnamed/part_000` lines 81-111).
`newId` is the generated uuid and `hashed` the bcrypt hash. -/
def signup (s : PState) (username name email phone password : Option String)
    (newId hashed createdAt : String) : PState × Nat :=
  match present username, present name, present email, present phone, present password with
  | some un, some nm, some em, some ph, some _ =>
    if s.users.any (fun u => jsToLower u.username == jsToLower un) then (s, 409)
    else if s.users.any (fun u => jsToLower u.email == jsToLower em) then (s, 409)
    else
      let u : PUser :=
        { id := newId, username := un, name := nm, email := em, phone := ph,
          password := hashed, createdAt := createdAt }
      ({ s with users := s.users ++ [u] }, 200)
  | _, _, _, _, _ => (s, 400)

/-- Handler for `POST /api/login` (`src/unnamed/part_000` lines 113-126).
`cmp` models `bcrypt.compare`.  A request without a `username` only throws
(and is answered 500 from the catch) when the `find` callback actually runs,
i.e. when the users file is non-empty; likewise a missing `password` makes
`bcrypt.compare` reject once a user was found. -/
def login (s : PState) (username password : Option String)
    (cmp : String → String → Bool) : PState × Nat :=
  match username with
  | none => if s.users.isEmpty then (s, 400) else (s, 500)
  | some un =>
    match s.users.find? (fun u => jsToLower u.username == jsToLower un) with
    | none => (s, 400)
    | some u =>
      match password with
      | none => (s, 500)
      | some pw => if ! cmp pw u.password then (s, 400) else (s, 200)

/-- JavaScript `Math.round`: round half towards positive infinity. -/
def jsRound (x : ℚ) : ℤ := Int.floor (x + 1/2)

/-- Handler for `POST /api/order` (`src/unnamed/part_000` lines 183-257).
The order is appended to `db/orders.json` and written before the admin
notification mail is awaited; a mail failure therefore jumps to the catch
(which logs the error and answers 500) with the order already persisted.
`emailOk` is the outcome of `transporter.sendMail`; the third component
records what the handler logged to the console. -/
def placeOrder (s : PState) (sess : Option SessUser)
    (platform service link payment note : Option String) (quantity : Option Nat)
    (screenshot : Option Screenshot) (newId createdAt : String) (emailOk : Bool) :
    PState × Nat × List String :=
  match sess with
  | none => (s, 401, [])
  | some su =>
    match present platform, present service, present link, present payment, quantity with
    | some pf, some sv, some lk, some pay, some q =>
      let pb := s.services.find? (fun p => jsToLower p.platform == jsToLower pf)
      let svc := (pb.map (fun p => p.services.find? (fun x => jsToLower x.name == jsToLower sv && x.active))).join
      match svc with
      | none => (s, 400, [])
      | some item =>
        let qty := max 1 q
        let price : ℚ := (jsRound (item.price * qty * 100) : ℚ) / 100
        let order : AOrder :=
          { id := newId, userId := su.id,
            user := { username := su.username, name := su.name, email := su.email, phone := su.phone },
            platform := pf, service := sv, quantity := qty, price := price,
            payment := pay, link := lk, note := (present note).getD "",
            screenshot := screenshot, status := "in progress", createdAt := createdAt }
        let s2 := { s with orders := s.orders ++ [order] }
        if emailOk then (s2, 200, []) else (s2, 500, ["error"])
    | _, _, _, _, _ => (s, 400, [])

/-- The `findIndex` / in-place assignment pair of the admin status route:
replace the status of the first order with the given id, or report that no
order matched. -/
def setStatusFirst (id st : String) : List AOrder → Option (List AOrder)
  | [] => none
  | o :: rest =>
    if o.id == id then some ({ o with status := st } :: rest)
    else (setStatusFirst id st rest).map (fun l => o :: l)

/-- Handler for `POST /api/admin/orders/status` (`src/unnamed/part_000`
lines 264-272), behind `authRequired` and `adminRequired`.  The supplied
status string is stored verbatim; the route performs no validation against
the `"done" | "in progress"` values its comment documents. -/
def updateOrderStatus (s : PState) (loggedIn admin : Bool) (id status : String) :
    PState × Nat :=
  if ! loggedIn then (s, 401)
  else if ! admin then (s, 403)
  else
    match setStatusFirst id status s.orders with
    | none => (s, 404)
    | some l => ({ s with orders := l }, 200)

end PanelA

namespace PanelB

/-- User record of the serverless variant's `data/users.json`
(`src/api/auth/signup.js`); passwords are stored in plain text. -/
structure BUser where
  id : String
  username : String
  name : String
  email : String
  password : String
deriving Repr, DecidableEq

/-- Order record of the serverless variant (`src/unnamed/part_001`). -/
structure BOrder where
  id : String
  platform : String
  service : String
  username : String
  amount : String
  paymentMethod : String
  proof : String
  status : String
  createdAt : String
deriving Repr, DecidableEq

/-- File store of the `data` directory: maps a file name to its parsed
content when the file exists.  One store per record type, matching the one
type each data file holds. -/
def Store (α : Type) : Type := String → Option (List α)

/-- The `readJSON` helper of `src/api/utils/db.js`: an absent file reads as
the empty array, an existing file as its parsed content. -/
def readJSON {α : Type} (store : Store α) (file : String) : List α :=
  match store file with
  | none => []
  | some l => l

/-- The `writeJSON` helper of `src/api/utils/db.js`. -/
def writeJSON {α : Type} (store : Store α) (file : String) (data : List α) :
    Store α :=
  fun f => if f = file then some data else store f

/-- Response of a serverless handler: HTTP status plus the `success` flag of
the JSON body when the body carries one. -/
structure Resp where
  status : Nat
  success : Option Bool
deriving Repr, DecidableEq

/-- JavaScript presence test for a body field (`!field`). -/
def present : Option String → Option String
  | none => none
  | some s => if s = "" then none else some s

/-- Handler `src/api/auth/signup.js`: reject when any stored user already
has exactly the supplied username or email, otherwise append the new user
and persist.  The handler validates nothing else. -/
def signup (store : Store BUser) (username name email password : String)
    (newId : String) (method : String) : Store BUser × Resp :=
  if method ≠ "POST" then (store, ⟨405, none⟩)
  else
    let users := readJSON store "users.json"
    match users.find? (fun u => u.username == username || u.email == email) with
    | some _ => (store, ⟨400, none⟩)
    | none =>
      let u : BUser :=
        { id := newId, username := username, name := name, email := email, password := password }
      (writeJSON store "users.json" (users ++ [u]), ⟨200, some true⟩)

/-- Strict JavaScript equality between a stored string and a possibly absent
body field (`u.username === username`). -/
def optStrEq (a : String) (b : Option String) : Bool :=
  match b with
  | some s => a == s
  | none => false

/-- Handler `src/api/auth/login.js`: plain `===` comparison of username and
password against the stored record; both a missing user and a wrong
password answer 200 with `success: false`.  The file is read with
`fs.readFileSync` without an existence check, so an absent users file
throws (a 500 from the platform). -/
def login (store : Store BUser) (username password : Option String)
    (method : String) : Resp :=
  if method ≠ "POST" then ⟨405, none⟩
  else
    match store "users.json" with
    | none => ⟨500, none⟩
    | some users =>
      match users.find? (fun u => optStrEq u.username username && optStrEq u.password password) with
      | none => ⟨200, some false⟩
      | some _ => ⟨200, some true⟩

/-- Handler `src/api/auth/me.js`: resolve the `uid` cookie against
`data/users.json` through `readJSON`; the response's `user` field is `null`
(here `none`) when the cookie is absent, empty, or matches no user. -/
def me (store : Store BUser) (cookieUid : Option String) : Option BUser :=
  match cookieUid with
  | none => none
  | some uid =>
    if uid = "" then none
    else
      let users := readJSON store "users.json"
      users.find? (fun u => u.id == uid)

/-- Handler `src/unnamed/part_001` (order placement): validate presence of
the six body fields, append the order with status `"Pending"`, persist, and
only then attempt the admin mail inside its own try/catch — a mail failure
is logged (`"Email failed:"`) and the response is the same `success` body
either way. -/
def placeOrder (store : Store BOrder)
    (platform service username amount paymentMethod proof : Option String)
    (newId createdAt : String) (method : String) (emailOk : Bool) :
    Store BOrder × Resp × List String :=
  if method ≠ "POST" then (store, ⟨405, none⟩, [])
  else
    match present platform, present service, present username, present amount,
      present paymentMethod, present proof with
    | some pf, some sv, some un, some am, some pm, some pr =>
      let orders := readJSON store "orders.json"
      let order : BOrder :=
        { id := newId, platform := pf, service := sv, username := un, amount := am,
          paymentMethod := pm, proof := pr, status := "Pending", createdAt := createdAt }
      let store2 := writeJSON store "orders.json" (orders ++ [order])
      let log := if emailOk then [] else ["Email failed:"]
      (store2, ⟨200, some true⟩, log)
    | _, _, _, _, _, _ => (store, ⟨400, none⟩, [])

end PanelB

/-- Status enum of the specification's order data model, stated from the
spec's words for comparison with what the handlers actually store:
`{"in progress" | "done" | "Pending"}`. -/
def specStatusEnum (s : String) : Bool :=
  s == "in progress" || s == "done" || s == "Pending"

namespace Hexachats

/-- A minimal user record used for concrete scenarios. -/
def mkUser (id : String) : User :=
  { id := id, firstName := "F", lastName := "L", password := "pw",
    bio := "", avatar := "", phone := "", email := "",
    settings := { theme := "light", online := true, lastSeen := 0 } }

/-- Concrete chat-server state with two registered users `A` and `B` and no
messages. -/
def twoUserState : HState :=
  { users := fun x => if x = "A" then some (mkUser "A") else
      if x = "B" then some (mkUser "B") else none
    contacts := fun _ => []
    chats := fun _ _ => []
    statuses := fun _ => []
    calls := fun _ => [] }

theorem login_chats_eq (s : HState) (id p : Option String)
    (cmp : String → String → Bool) (now : Nat) :
    (login s id p cmp now).1.chats = s.chats := by
  unfold login
  split_ifs
  · rfl
  · rfl
  · split
    · rfl
    · split_ifs <;> rfl

theorem updateUser_chats_eq (s : HState) (id : String) (b : ProfileBody)
    (hashed : String) : (updateUser s id b hashed).1.chats = s.chats := by
  unfold updateUser
  split
  · rfl
  · split_ifs <;> rfl

theorem addContact_chats_eq (s : HState) (u c : String) :
    (addContact s u c).1.chats = s.chats := by
  unfold addContact
  split
  · split_ifs <;> rfl
  · rfl

theorem addStatus_chats_eq (s : HState) (u : String) (m cap ty : Option String)
    (now : Nat) : (addStatus s u m cap ty now).1.chats = s.chats := by
  unfold addStatus
  split
  · rfl
  · split_ifs <;> rfl

theorem addCall_chats_eq (s : HState) (u c ty d : String) (mi : Option Bool)
    (now : Nat) : (addCall s u c ty d mi now).1.chats = s.chats := by
  unfold addCall
  split
  · rfl
  · rfl

theorem signup_chats_cases (s : HState) (f l p : Option String) (id h : String)
    (now : Nat) :
    (signup s f l p id h now).1.chats = s.chats ∨
    (signup s f l p id h now).1.chats = fun x y => if x = id then [] else s.chats x y := by
  unfold signup
  split_ifs
  · exact Or.inl rfl
  · exact Or.inl rfl
  · exact Or.inr rfl

theorem markRead_chats_cases (s : HState) (U C : String) :
    (markRead s U C).1.chats = s.chats ∨
    (markRead s U C).1.chats =
      upd2 s.chats U C ((s.chats U C).map (markReadMsg C)) := by
  unfold markRead
  split
  · exact Or.inr rfl
  · exact Or.inl rfl

theorem markReadMsg_sender (C : String) (m : ChatMsg) :
    (markReadMsg C m).sender = m.sender := by
  unfold markReadMsg
  split_ifs <;> rfl

theorem markReadMsg_message (C : String) (m : ChatMsg) :
    (markReadMsg C m).message = m.message := by
  unfold markReadMsg
  split_ifs <;> rfl

theorem markReadMsg_timestamp (C : String) (m : ChatMsg) :
    (markReadMsg C m).timestamp = m.timestamp := by
  unfold markReadMsg
  split_ifs <;> rfl

theorem markReadMsg_of_other_sender (C : String) (m : ChatMsg)
    (h : m.sender ≠ C) : markReadMsg C m = m := by
  unfold markReadMsg
  rw [if_neg]
  intro hc
  exact h hc.1

theorem markReadMsg_of_read (C : String) (m : ChatMsg) (h : m.read = true) :
    markReadMsg C m = m := by
  unfold markReadMsg
  rw [if_neg]
  intro hc
  rw [h] at hc
  exact absurd hc.2 (by simp)

theorem upd2_send_value (m : String → String → List ChatMsg) (u c U C : String)
    (M : ChatMsg) :
    ∃ suf,
      upd2 (upd2 m u c (m u c ++ [M])) c u
        (upd2 m u c (m u c ++ [M]) c u ++ [M]) U C = m U C ++ suf ∧
      ∀ x ∈ suf, x = M := by
  by_cases h1 : U = c ∧ C = u
  · obtain ⟨h1a, h1b⟩ := h1
    subst h1a
    subst h1b
    by_cases hq : U = C
    · subst hq
      exact ⟨[M, M], by simp [upd2], by simp⟩
    · refine ⟨[M], ?_, by simp⟩
      have hn : ¬ (U = C ∧ C = U) := fun h => hq h.1
      simp [upd2, hn]
  · by_cases h2 : U = u ∧ C = c
    · obtain ⟨h2a, h2b⟩ := h2
      subst h2a
      subst h2b
      refine ⟨[M], ?_, by simp⟩
      simp [upd2, h1]
    · exact ⟨[], by simp [upd2, h1, h2], by simp⟩

theorem sendMessage_chats_extend (s : HState) (u c : String) (mo : Option String)
    (ts : Nat) (U C : String) :
    ∃ suf, (sendMessage s u c mo ts).1.chats U C = s.chats U C ++ suf ∧
      ∀ x ∈ suf, ∃ mt, mo = some mt ∧ jsTrim mt ≠ "" ∧
        x = { sender := u, message := jsTrim mt, timestamp := ts, read := false } := by
  unfold sendMessage
  cases hu : s.users u with
  | none => exact ⟨[], by simp, by simp⟩
  | some _ =>
    cases hc : s.users c with
    | none => exact ⟨[], by simp, by simp⟩
    | some _ =>
      cases mo with
      | none => exact ⟨[], by simp, by simp⟩
      | some mt =>
        by_cases hmt : jsTrim mt = ""
        · exact ⟨[], by simp [hmt], by simp⟩
        · simp only []
          rw [if_neg hmt]
          obtain ⟨suf, hval, hmem⟩ :=
            upd2_send_value s.chats u c U C ⟨u, jsTrim mt, ts, false⟩
          refine ⟨suf, hval, ?_⟩
          intro x hx
          exact ⟨mt, rfl, hmt, hmem x hx⟩

end Hexachats

namespace Hexachats

/-- C1: in the chat variant, a successful send of a message with non-empty
text from user `U` to a contact `C` stores the message twice — appended once
to `U`'s chat list for `C` and once to `C`'s chat list for `U` — and the two
stored copies are the identical record: sender `U`, the trimmed text, the
same timestamp, and read flag `false` in both. -/
theorem sendMessage_stores_twice (s : HState) (U C m : String) (ts : Nat)
    (uU uC : User) (hUC : U ≠ C) (hU : s.users U = some uU)
    (hC : s.users C = some uC) (hm : jsTrim m ≠ "") :
    (sendMessage s U C (some m) ts).2 = 200 ∧
    (sendMessage s U C (some m) ts).1.chats U C =
      s.chats U C ++ [{ sender := U, message := jsTrim m, timestamp := ts, read := false }] ∧
    (sendMessage s U C (some m) ts).1.chats C U =
      s.chats C U ++ [{ sender := U, message := jsTrim m, timestamp := ts, read := false }] := by
  unfold sendMessage
  rw [hU, hC]
  simp only []
  rw [if_neg hm]
  have hn1 : ¬ (U = C ∧ C = U) := fun h => hUC h.1
  have hn2 : ¬ (C = U ∧ U = C) := fun h => hUC h.2
  refine ⟨rfl, ?_, ?_⟩
  · simp [upd2, hn1]
  · simp [upd2, hn2, fun h : C = U => hUC h.symm]

/-- Witness for the C1 theorem at a concrete two-user state. -/
theorem sendMessage_stores_twice_witness :
    (sendMessage twoUserState "A" "B" (some " hi ") 5).2 = 200 ∧
    (sendMessage twoUserState "A" "B" (some " hi ") 5).1.chats "A" "B" =
      twoUserState.chats "A" "B" ++
        [{ sender := "A", message := jsTrim " hi ", timestamp := 5, read := false }] ∧
    (sendMessage twoUserState "A" "B" (some " hi ") 5).1.chats "B" "A" =
      twoUserState.chats "B" "A" ++
        [{ sender := "A", message := jsTrim " hi ", timestamp := 5, read := false }] :=
  sendMessage_stores_twice twoUserState "A" "B" " hi " 5 (mkUser "A") (mkUser "B")
    (by decide) (by decide) (by decide) (by decide)

theorem read_stays_step (s : HState) (op : HOp) (U C : String) (i : Nat)
    (msg : ChatMsg) (h : (s.chats U C)[i]? = some msg) (hr : msg.read = true)
    (hsp : sparesUser U op) :
    ((applyOp s op).chats U C)[i]? = some msg := by
  have hi : i < (s.chats U C).length := by
    have := List.getElem?_eq_some.mp h
    exact this.1
  cases op with
  | opSignup f l pw id hsh now =>
    have hne : ¬ U = id := fun hE => hsp hE.symm
    simp only [applyOp, signup]
    split_ifs
    · exact h
    · exact h
    · show ((if U = id then ([] : List ChatMsg) else s.chats U C))[i]? = some msg
      rw [if_neg hne]
      exact h
  | opLogin id pw cmp now =>
    simp only [applyOp]
    rw [login_chats_eq]
    exact h
  | opUpdateUser id b hsh =>
    simp only [applyOp]
    rw [updateUser_chats_eq]
    exact h
  | opAddContact u c =>
    simp only [applyOp]
    rw [addContact_chats_eq]
    exact h
  | opAddStatus u m cap ty now =>
    simp only [applyOp]
    rw [addStatus_chats_eq]
    exact h
  | opAddCall u c ty d mi now =>
    simp only [applyOp]
    rw [addCall_chats_eq]
    exact h
  | opSendMessage u c mo ts =>
    simp only [applyOp]
    obtain ⟨suf, hs, _⟩ := sendMessage_chats_extend s u c mo ts U C
    rw [hs, List.getElem?_append_left hi]
    exact h
  | opMarkRead u c =>
    simp only [applyOp]
    rcases markRead_chats_cases s u c with hc | hc
    · rw [hc]
      exact h
    · rw [hc]
      by_cases he : U = u ∧ C = c
      · obtain ⟨he1, he2⟩ := he
        subst he1
        subst he2
        have hv : upd2 s.chats U C ((s.chats U C).map (markReadMsg C)) U C =
            (s.chats U C).map (markReadMsg C) := by simp [upd2]
        rw [hv, List.getElem?_map, h]
        simp [markReadMsg_of_read C msg hr]
      · have hv : upd2 s.chats u c ((s.chats u c).map (markReadMsg c)) U C =
            s.chats U C := by simp [upd2, he]
        rw [hv]
        exact h

/-- C6: in the chat variant, once a message's read flag is `true`, no
sequence of further requests (more sends, further mark-as-read calls,
contact/profile/status/call/login requests, or signups whose generated id
does not collide with the conversation owner's) ever changes the stored
message: a marked-read message stays read, with identical content, at its
position. -/
theorem read_flag_stays (ops : List HOp) (s : HState) (U C : String) (i : Nat)
    (msg : ChatMsg) (h : (s.chats U C)[i]? = some msg) (hr : msg.read = true)
    (hops : ∀ op ∈ ops, sparesUser U op) :
    ((ops.foldl applyOp s).chats U C)[i]? = some msg := by
  induction ops generalizing s with
  | nil => exact h
  | cons op rest ih =>
    simp only [List.foldl_cons]
    exact ih (applyOp s op)
      (read_stays_step s op U C i msg h hr (hops op (List.mem_cons_self op rest)))
      (fun o ho => hops o (List.mem_cons_of_mem op ho))

/-- Concrete state in which `A` has sent `B` one message and `B` has marked
the conversation read. -/
def readState : HState :=
  (markRead (sendMessage twoUserState "A" "B" (some "hi") 7).1 "B" "A").1

/-- Witness for the C6 theorem: after a further send, the marked-read
message in `B`'s copy is still read. -/
theorem read_flag_stays_witness :
    ((([HOp.opSendMessage "A" "B" (some "yo") 9].foldl applyOp readState).chats "B" "A")[0]? =
      some { sender := "A", message := "hi", timestamp := 7, read := true }) :=
  read_flag_stays [HOp.opSendMessage "A" "B" (some "yo") 9] readState "B" "A" 0
    { sender := "A", message := "hi", timestamp := 7, read := true }
    (by decide) rfl
    (by
      intro o ho
      rcases List.mem_singleton.mp ho with rfl
      trivial)

end Hexachats

namespace Hexachats

/-- C7: in the chat variant, a send-message request between two existing
users whose body is missing, empty, or whitespace-only is answered 400 with
the whole state (in particular both participants' chat lists) unchanged;
and every state-mutating request preserves the invariant that all stored
chat messages have non-empty text. -/
theorem sendMessage_rejects_blank :
    (∀ (s : HState) (U C : String) (uU uC : User) (mo : Option String) (ts : Nat),
      s.users U = some uU → s.users C = some uC → jsTrim (mo.getD "") = "" →
      sendMessage s U C mo ts = (s, 400)) ∧
    (∀ (s : HState) (op : HOp),
      (∀ u c m, m ∈ s.chats u c → m.message ≠ "") →
      (∀ u c m, m ∈ (applyOp s op).chats u c → m.message ≠ "")) := by
  constructor
  · intro s U C uU uC mo ts hU hC hmo
    unfold sendMessage
    rw [hU, hC]
    cases mo with
    | none => rfl
    | some m =>
      simp only []
      rw [if_pos (by simpa using hmo)]
  · intro s op hinv
    cases op with
    | opSignup f l pw id hsh now =>
      intro u c m hm
      simp only [applyOp] at hm
      rcases signup_chats_cases s f l pw id hsh now with hc | hc
      · rw [hc] at hm
        exact hinv u c m hm
      · rw [hc] at hm
        simp only [] at hm
        by_cases hu : u = id
        · rw [if_pos hu] at hm
          simp at hm
        · rw [if_neg hu] at hm
          exact hinv u c m hm
    | opLogin id pw cmp now =>
      intro u c m hm
      simp only [applyOp] at hm
      rw [login_chats_eq] at hm
      exact hinv u c m hm
    | opUpdateUser id b hsh =>
      intro u c m hm
      simp only [applyOp] at hm
      rw [updateUser_chats_eq] at hm
      exact hinv u c m hm
    | opAddContact u' c' =>
      intro u c m hm
      simp only [applyOp] at hm
      rw [addContact_chats_eq] at hm
      exact hinv u c m hm
    | opAddStatus u' mo cap ty now =>
      intro u c m hm
      simp only [applyOp] at hm
      rw [addStatus_chats_eq] at hm
      exact hinv u c m hm
    | opAddCall u' c' ty d mi now =>
      intro u c m hm
      simp only [applyOp] at hm
      rw [addCall_chats_eq] at hm
      exact hinv u c m hm
    | opSendMessage u' c' mo ts =>
      intro u c m hm
      simp only [applyOp] at hm
      obtain ⟨suf, hs, hsuf⟩ := sendMessage_chats_extend s u' c' mo ts u c
      rw [hs] at hm
      rcases List.mem_append.mp hm with hm | hm
      · exact hinv u c m hm
      · obtain ⟨mt, _, hne, rfl⟩ := hsuf m hm
        exact hne
    | opMarkRead u' c' =>
      intro u c m hm
      simp only [applyOp] at hm
      rcases markRead_chats_cases s u' c' with hc | hc
      · rw [hc] at hm
        exact hinv u c m hm
      · rw [hc] at hm
        by_cases he : u = u' ∧ c = c'
        · obtain ⟨he1, he2⟩ := he
          subst he1
          subst he2
          have hv : upd2 s.chats u c ((s.chats u c).map (markReadMsg c)) u c =
              (s.chats u c).map (markReadMsg c) := by simp [upd2]
          rw [hv] at hm
          obtain ⟨y, hy, rfl⟩ := List.mem_map.mp hm
          rw [markReadMsg_message]
          exact hinv u c y hy
        · have hv : upd2 s.chats u' c' ((s.chats u' c').map (markReadMsg c')) u c =
              s.chats u c := by simp [upd2, he]
          rw [hv] at hm
          exact hinv u c m hm

/-- Witness for the C7 theorem: a whitespace-only message between the two
concrete users is rejected with 400 and no state change. -/
theorem sendMessage_rejects_blank_witness :
    sendMessage twoUserState "A" "B" (some "   ") 3 = (twoUserState, 400) :=
  sendMessage_rejects_blank.1 twoUserState "A" "B" (mkUser "A") (mkUser "B")
    (some "   ") 3 (by decide) (by decide) (by decide)

/-- C8: in the chat variant's profile update, a request carrying a password
shorter than 6 characters together with a (non-empty) new first name is
answered 400, yet the stored user already carries the new first name: a 400
from profile update does not mean the profile is unchanged. -/
theorem updateUser_short_password_partial (s : HState) (userId f p hashed : String)
    (u : User) (hu : s.users userId = some u) (hf : f ≠ "") (hp : p ≠ "")
    (hlen : p.length < 6) :
    (updateUser s userId ⟨some f, none, none, none, none, none, some p⟩ hashed).2 = 400 ∧
    (updateUser s userId ⟨some f, none, none, none, none, none, some p⟩ hashed).1.users userId
      = some { u with firstName := f } := by
  unfold updateUser
  rw [hu]
  simp only []
  rw [if_neg (by simp [falsy, hp]), if_pos (by simpa using hlen)]
  refine ⟨rfl, ?_⟩
  simp [upd, app, falsy, hf]

/-- Witness for the C8 theorem at a concrete state: first name updated to
`New` despite the 400 response for the short password. -/
theorem updateUser_short_password_partial_witness :
    (updateUser twoUserState "A" ⟨some "New", none, none, none, none, none, some "abc"⟩ "HH").2 = 400 ∧
    (updateUser twoUserState "A" ⟨some "New", none, none, none, none, none, some "abc"⟩ "HH").1.users "A"
      = some { mkUser "A" with firstName := "New" } :=
  updateUser_short_password_partial twoUserState "A" "New" "abc" "HH" (mkUser "A")
    (by decide) (by decide) (by decide) (by decide)

/-- Concrete run demonstrating that the two stored copies of one message can
diverge: `A` sends `B` one message, then `B` marks the conversation read;
the copy in `B`'s inbox is read while `A`'s duplicate stays unread. -/
def readCopiesDiverge : Bool :=
  let s1 := (sendMessage twoUserState "A" "B" (some "hi") 7).1
  let s2 := (markRead s1 "B" "A").1
  ((s2.chats "B" "A").map ChatMsg.read == [true]) &&
  ((s2.chats "A" "B").map ChatMsg.read == [false])

/-- C9: the mark-as-read operation for user `U` and contact `C` rewrites only
`U`'s copy of the conversation with `C`, applying a per-message update that
can only flip the read flag of messages sent by `C` (sender, text and
timestamp are preserved, and messages from other senders are untouched);
users, contacts, statuses, calls and every other conversation — including
`C`'s duplicate copy — are unchanged, so the read flags of the two stored
copies of a message can diverge (witnessed by the concrete run
`readCopiesDiverge`). -/
theorem markRead_frame (s : HState) (U C : String) (uU uC : User)
    (hU : s.users U = some uU) (hC : s.users C = some uC) :
    (markRead s U C).1.users = s.users ∧
    (markRead s U C).1.contacts = s.contacts ∧
    (markRead s U C).1.statuses = s.statuses ∧
    (markRead s U C).1.calls = s.calls ∧
    (∀ u c, ¬ (u = U ∧ c = C) → (markRead s U C).1.chats u c = s.chats u c) ∧
    (markRead s U C).1.chats U C = (s.chats U C).map (markReadMsg C) ∧
    (∀ m, (markReadMsg C m).sender = m.sender ∧ (markReadMsg C m).message = m.message ∧
      (markReadMsg C m).timestamp = m.timestamp) ∧
    (∀ m, m.sender ≠ C → markReadMsg C m = m) ∧
    readCopiesDiverge = true := by
  have hstep : markRead s U C =
      ({ s with chats := upd2 s.chats U C ((s.chats U C).map (markReadMsg C)) }, 200) := by
    unfold markRead
    rw [hU, hC]
  rw [hstep]
  refine ⟨rfl, rfl, rfl, rfl, ?_, ?_, ?_, ?_, ?_⟩
  · intro u c hne
    simp [upd2, hne]
  · simp [upd2]
  · intro m
    exact ⟨markReadMsg_sender C m, markReadMsg_message C m, markReadMsg_timestamp C m⟩
  · intro m hm
    exact markReadMsg_of_other_sender C m hm
  · decide

/-- Witness for the C9 theorem at the concrete two-user state. -/
theorem markRead_frame_witness :
    (markRead twoUserState "A" "B").1.users = twoUserState.users ∧
    readCopiesDiverge = true :=
  ⟨(markRead_frame twoUserState "A" "B" (mkUser "A") (mkUser "B") (by decide) (by decide)).1,
   (markRead_frame twoUserState "A" "B" (mkUser "A") (mkUser "B") (by decide) (by decide)).2.2.2.2.2.2.2.2⟩

end Hexachats

namespace PanelB

/-- A file store in which no data file exists. -/
def emptyStore : Store BUser := fun _ => none

end PanelB

/-- C10: in the file-backed serverless variant, `readJSON` returns the empty
array whenever the requested data file does not exist, so read endpoints
built on it treat an absent data file as an empty collection — in
particular the session lookup (`me`) yields user `null` instead of
throwing. -/
theorem readJSON_absent_as_empty :
    (∀ (α : Type) (store : PanelB.Store α) (file : String),
      store file = none → PanelB.readJSON store file = []) ∧
    (∀ (store : PanelB.Store PanelB.BUser) (cookieUid : Option String),
      store "users.json" = none → PanelB.me store cookieUid = none) := by
  constructor
  · intro α store file h
    unfold PanelB.readJSON
    rw [h]
  · intro store cookie h
    cases cookie with
    | none => rfl
    | some uid =>
      unfold PanelB.me
      simp only []
      by_cases hu : uid = ""
      · rw [if_pos hu]
      · rw [if_neg hu]
        unfold PanelB.readJSON
        rw [h]
        rfl

/-- Witness for the C10 theorem on the empty file store. -/
theorem readJSON_absent_as_empty_witness :
    PanelB.readJSON PanelB.emptyStore "users.json" = ([] : List PanelB.BUser) ∧
    PanelB.me PanelB.emptyStore (some "u1") = none :=
  ⟨readJSON_absent_as_empty.1 PanelB.BUser PanelB.emptyStore "users.json" rfl,
   readJSON_absent_as_empty.2 PanelB.emptyStore (some "u1") rfl⟩

namespace PanelA

/-- Concrete stored user of the file-backed panel. -/
def aliceUser : PUser :=
  { id := "u1", username := "alice", name := "Alice", email := "a@x.com",
    phone := "1", password := "HASH", createdAt := "t" }

/-- Concrete panel state with exactly one user. -/
def oneUserState : PState := { users := [aliceUser], services := [], orders := [] }

end PanelA

namespace Hexachats

/-- Concrete chat-server state with one user stored under a well-formed
Hexachats id. -/
def hexaIdState : HState :=
  { users := fun x => if x = "HX-111111111" then some (mkUser "HX-111111111") else none
    contacts := fun _ => []
    chats := fun _ _ => []
    statuses := fun _ => []
    calls := fun _ => [] }

end Hexachats

namespace PanelB

/-- A file store whose users file exists but is empty. -/
def emptyUsersStore : Store BUser := fun f => if f = "users.json" then some [] else none

end PanelB

/-- C3 counterexample: in the file-backed panel variant a login request for
an existing user whose password does not match is answered 400 — not 401 or
403 as the claim requires for every variant.  (`fun _ _ => false` is the
bcrypt comparison outcome for the mismatching password.) -/
theorem login_wrong_password_400 :
    (PanelA.login PanelA.oneUserState (some "alice") (some "wrong") (fun _ _ => false)).2 = 400 ∧
    ¬ ((400 : Nat) = 401 ∨ (400 : Nat) = 403) := by
  constructor
  · decide
  · decide

/-- C3 amended: the status-code mapping of the claim holds only for the chat
variant (404 for an unknown well-formed id, 401 for a wrong password); the
file-backed panel variant answers 400 both for an unknown user and for a
wrong password, and the serverless variant answers 200 with `success:false`
in both cases. -/
theorem login_status_codes :
    (∀ (s : Hexachats.HState) (id pw : String) (cmp : String → String → Bool) (now : Nat),
      id ≠ "" → pw ≠ "" → Hexachats.isHexaId id = true → s.users id = none →
      (Hexachats.login s (some id) (some pw) cmp now).2 = 404) ∧
    (∀ (s : Hexachats.HState) (id pw : String) (cmp : String → String → Bool) (now : Nat)
      (u : Hexachats.User),
      id ≠ "" → pw ≠ "" → Hexachats.isHexaId id = true → s.users id = some u →
      cmp pw u.password = false →
      (Hexachats.login s (some id) (some pw) cmp now).2 = 401) ∧
    (∀ (s : PanelA.PState) (un pw : String) (cmp : String → String → Bool),
      s.users.find? (fun u => PanelA.jsToLower u.username == PanelA.jsToLower un) = none →
      (PanelA.login s (some un) (some pw) cmp).2 = 400) ∧
    (∀ (s : PanelA.PState) (un pw : String) (cmp : String → String → Bool) (u : PanelA.PUser),
      s.users.find? (fun v => PanelA.jsToLower v.username == PanelA.jsToLower un) = some u →
      cmp pw u.password = false →
      (PanelA.login s (some un) (some pw) cmp).2 = 400) ∧
    (∀ (store : PanelB.Store PanelB.BUser) (users : List PanelB.BUser) (un pw : Option String),
      store "users.json" = some users →
      users.find? (fun u => PanelB.optStrEq u.username un && PanelB.optStrEq u.password pw) = none →
      PanelB.login store un pw "POST" = ⟨200, some false⟩) := by
  refine ⟨?_, ?_, ?_, ?_, ?_⟩
  · intro s id pw cmp now hid hpw hfmt hnone
    simp [Hexachats.login, Hexachats.falsy, hid, hpw, hfmt, hnone]
  · intro s id pw cmp now u hid hpw hfmt hu hcmp
    simp [Hexachats.login, Hexachats.falsy, hid, hpw, hfmt, hu, hcmp]
  · intro s un pw cmp hfind
    simp [PanelA.login, hfind]
  · intro s un pw cmp u hfind hcmp
    simp [PanelA.login, hfind, hcmp]
  · intro store users un pw hstore hfind
    simp [PanelB.login, hstore, hfind]

/-- Witness for the C3 amended theorem at concrete states of each variant. -/
theorem login_status_codes_witness :
    (Hexachats.login Hexachats.hexaIdState (some "HX-999999999") (some "secret1")
      (fun _ _ => false) 0).2 = 404 ∧
    (Hexachats.login Hexachats.hexaIdState (some "HX-111111111") (some "wrong1")
      (fun _ _ => false) 0).2 = 401 ∧
    (PanelA.login PanelA.oneUserState (some "bob") (some "pw") (fun _ _ => false)).2 = 400 ∧
    (PanelA.login PanelA.oneUserState (some "alice") (some "wrong") (fun _ _ => false)).2 = 400 ∧
    PanelB.login PanelB.emptyUsersStore (some "alice") (some "pw") "POST" = ⟨200, some false⟩ :=
  ⟨login_status_codes.1 Hexachats.hexaIdState "HX-999999999" "secret1" (fun _ _ => false) 0
      (by decide) (by decide) (by decide) (by decide),
   login_status_codes.2.1 Hexachats.hexaIdState "HX-111111111" "wrong1" (fun _ _ => false) 0
      (Hexachats.mkUser "HX-111111111") (by decide) (by decide) (by decide) (by decide) rfl,
   login_status_codes.2.2.1 PanelA.oneUserState "bob" "pw" (fun _ _ => false) (by decide),
   login_status_codes.2.2.2.1 PanelA.oneUserState "alice" "wrong" (fun _ _ => false)
      PanelA.aliceUser (by decide) rfl,
   login_status_codes.2.2.2.2 PanelB.emptyUsersStore [] (some "alice") (some "pw")
      (by decide) rfl⟩

namespace PanelB

theorem readJSON_writeJSON {α : Type} (store : Store α) (file : String) (data : List α) :
    readJSON (writeJSON store file data) file = data := by
  unfold readJSON writeJSON
  simp

end PanelB

namespace PanelA

/-- Concrete panel state with one active service. -/
def svcState : PState :=
  { users := [], orders := [],
    services := [{ platform := "tiktok",
                   services := [{ name := "likes", price := 10, active := true }] }] }

/-- Concrete session user for order placement. -/
def aliceSess : SessUser :=
  { id := "u1", username := "alice", name := "Alice", email := "a@x.com", phone := "1" }

end PanelA

/-- C4 counterexample: in the file-backed panel variant an order placement
whose admin notification mail fails still records the order, but the caller
receives 500 instead of the 200 returned on mail success — the observable
outcome to the caller is not the same as on email success, refuting the
claim for this variant. -/
theorem placeOrder_email_failure_500 :
    (PanelA.placeOrder PanelA.svcState (some PanelA.aliceSess) (some "tiktok") (some "likes")
      (some "L") (some "EasyPaisa") none (some 2) none "9" "t" false).2.1 = 500 ∧
    (PanelA.placeOrder PanelA.svcState (some PanelA.aliceSess) (some "tiktok") (some "likes")
      (some "L") (some "EasyPaisa") none (some 2) none "9" "t" true).2.1 = 200 ∧
    (PanelA.placeOrder PanelA.svcState (some PanelA.aliceSess) (some "tiktok") (some "likes")
      (some "L") (some "EasyPaisa") none (some 2) none "9" "t" false).1.orders.length = 1 := by
  refine ⟨?_, ?_, ?_⟩ <;> rfl

/-- C4 amended: both panel variants write the order before attempting the
admin mail, so the stored orders are identical whatever the mail outcome; in
the serverless variant the failure is only logged and the response is
unchanged, while in the file-backed express variant the caller receives 500
instead of 200. -/
theorem order_email_failure_behaviour :
    (∀ (store : PanelB.Store PanelB.BOrder) (pf sv un am pm pr : Option String)
      (id t : String) (em : Bool),
      (PanelB.placeOrder store pf sv un am pm pr id t "POST" em).1 =
        (PanelB.placeOrder store pf sv un am pm pr id t "POST" true).1 ∧
      (PanelB.placeOrder store pf sv un am pm pr id t "POST" em).2.1 =
        (PanelB.placeOrder store pf sv un am pm pr id t "POST" true).2.1) ∧
    (∀ (store : PanelB.Store PanelB.BOrder) (pf sv un am pm pr : Option String)
      (id t : String) (em : Bool),
      ((PanelB.placeOrder store pf sv un am pm pr id t "POST" em).2.1).status = 200 →
      ∃ o, PanelB.readJSON (PanelB.placeOrder store pf sv un am pm pr id t "POST" em).1
          "orders.json" = PanelB.readJSON store "orders.json" ++ [o]) ∧
    (∀ (s : PanelA.PState) (sess : Option PanelA.SessUser)
      (pf sv lk pay note : Option String) (q : Option Nat)
      (scr : Option PanelA.Screenshot) (id t : String) (em : Bool),
      (PanelA.placeOrder s sess pf sv lk pay note q scr id t em).1 =
        (PanelA.placeOrder s sess pf sv lk pay note q scr id t true).1) ∧
    (∀ (s : PanelA.PState) (sess : Option PanelA.SessUser)
      (pf sv lk pay note : Option String) (q : Option Nat)
      (scr : Option PanelA.Screenshot) (id t : String),
      (PanelA.placeOrder s sess pf sv lk pay note q scr id t true).2.1 = 200 →
      ((PanelA.placeOrder s sess pf sv lk pay note q scr id t false).2.1 = 500 ∧
       ∃ o, (PanelA.placeOrder s sess pf sv lk pay note q scr id t false).1.orders =
         s.orders ++ [o])) := by
  refine ⟨?_, ?_, ?_, ?_⟩
  · intro store pf sv un am pm pr id t em
    unfold PanelB.placeOrder
    rw [if_neg (by decide)]
    rcases PanelB.present pf with _ | x1
    · exact ⟨rfl, rfl⟩
    rcases PanelB.present sv with _ | x2
    · exact ⟨rfl, rfl⟩
    rcases PanelB.present un with _ | x3
    · exact ⟨rfl, rfl⟩
    rcases PanelB.present am with _ | x4
    · exact ⟨rfl, rfl⟩
    rcases PanelB.present pm with _ | x5
    · exact ⟨rfl, rfl⟩
    rcases PanelB.present pr with _ | x6
    · exact ⟨rfl, rfl⟩
    exact ⟨rfl, rfl⟩
  · intro store pf sv un am pm pr id t em h
    unfold PanelB.placeOrder at h ⊢
    rw [if_neg (by decide)] at h ⊢
    revert h
    rcases PanelB.present pf with _ | x1
    · intro h
      simp at h
    rcases PanelB.present sv with _ | x2
    · intro h
      simp at h
    rcases PanelB.present un with _ | x3
    · intro h
      simp at h
    rcases PanelB.present am with _ | x4
    · intro h
      simp at h
    rcases PanelB.present pm with _ | x5
    · intro h
      simp at h
    rcases PanelB.present pr with _ | x6
    · intro h
      simp at h
    intro h
    exact ⟨_, PanelB.readJSON_writeJSON store "orders.json" _⟩
  · intro s sess pf sv lk pay note q scr id t em
    cases em
    case true => rfl
    case false =>
      unfold PanelA.placeOrder
      cases sess with
      | none => rfl
      | some su =>
        rcases PanelA.present pf with _ | x1
        · rfl
        rcases PanelA.present sv with _ | x2
        · rfl
        rcases PanelA.present lk with _ | x3
        · rfl
        rcases PanelA.present pay with _ | x4
        · rfl
        rcases q with _ | qv
        · rfl
        simp only []
        split
        · rfl
        · simp
  · intro s sess pf sv lk pay note q scr id t h
    unfold PanelA.placeOrder at h ⊢
    revert h
    cases sess with
    | none =>
      intro h
      simp at h
    | some su =>
      rcases PanelA.present pf with _ | x1
      · intro h
        simp at h
      rcases PanelA.present sv with _ | x2
      · intro h
        simp at h
      rcases PanelA.present lk with _ | x3
      · intro h
        simp at h
      rcases PanelA.present pay with _ | x4
      · intro h
        simp at h
      rcases q with _ | qv
      · intro h
        simp at h
      simp only []
      split
      · intro h
        simp at h
      · intro h
        exact ⟨rfl, _, rfl⟩

/-- Witness for the C4 amended theorem at the concrete service state. -/
theorem order_email_failure_behaviour_witness :
    ((PanelB.placeOrder (fun _ => none) (some "ig") (some "likes") (some "bob") (some "10")
        (some "JazzCash") (some "img") "1" "t" "POST" false).1 =
      (PanelB.placeOrder (fun _ => none) (some "ig") (some "likes") (some "bob") (some "10")
        (some "JazzCash") (some "img") "1" "t" "POST" true).1) ∧
    ((PanelA.placeOrder PanelA.svcState (some PanelA.aliceSess) (some "tiktok") (some "likes")
        (some "L") (some "EasyPaisa") none (some 2) none "9" "t" false).2.1 = 500 ∧
     ∃ o, (PanelA.placeOrder PanelA.svcState (some PanelA.aliceSess) (some "tiktok") (some "likes")
        (some "L") (some "EasyPaisa") none (some 2) none "9" "t" false).1.orders =
          PanelA.svcState.orders ++ [o]) :=
  ⟨(order_email_failure_behaviour.1 (fun _ => none) (some "ig") (some "likes") (some "bob")
      (some "10") (some "JazzCash") (some "img") "1" "t" false).1,
   order_email_failure_behaviour.2.2.2 PanelA.svcState (some PanelA.aliceSess) (some "tiktok")
      (some "likes") (some "L") (some "EasyPaisa") none (some 2) none "9" "t" rfl⟩

namespace PanelA

/-- Concrete stored order used in the status-update scenarios. -/
def sampleOrder : AOrder :=
  { id := "1", userId := "u1",
    user := { username := "alice", name := "Alice", email := "a@x.com", phone := "1" },
    platform := "tiktok", service := "likes", quantity := 1, price := 10,
    payment := "EasyPaisa", link := "L", note := "", screenshot := none,
    status := "in progress", createdAt := "t" }

/-- Concrete panel state holding one order. -/
def orderState : PState := { users := [], services := [], orders := [sampleOrder] }

theorem setStatusFirst_mem (id st : String) :
    ∀ (l l2 : List AOrder), setStatusFirst id st l = some l2 →
      ∀ o ∈ l2, o ∈ l ∨ o.status = st := by
  intro l
  induction l with
  | nil =>
    intro l2 h
    simp [setStatusFirst] at h
  | cons a rest ih =>
    intro l2 h o ho
    unfold setStatusFirst at h
    by_cases ha : (a.id == id) = true
    · rw [if_pos ha] at h
      injection h with h
      subst h
      rcases List.mem_cons.mp ho with rfl | ho
      · exact Or.inr rfl
      · exact Or.inl (List.mem_cons_of_mem a ho)
    · rw [if_neg ha] at h
      cases hrec : setStatusFirst id st rest with
      | none =>
        rw [hrec] at h
        simp at h
      | some l3 =>
        rw [hrec] at h
        simp only [Option.map] at h
        injection h with h
        subst h
        rcases List.mem_cons.mp ho with rfl | ho
        · exact Or.inl (by simp)
        · rcases ih l3 hrec o ho with h1 | h1
          · exact Or.inl (List.mem_cons_of_mem a h1)
          · exact Or.inr h1

end PanelA

/-- C2 counterexample: the admin status-update route accepts the status
string `"whatever"` (responding 200) and stores it verbatim, leaving the
order's status outside the spec's enum
{"in progress", "done", "Pending"} — the update does not keep the status
within the enum for every request it accepts. -/
theorem updateOrderStatus_escapes_enum :
    (PanelA.updateOrderStatus PanelA.orderState true true "1" "whatever").2 = 200 ∧
    (PanelA.updateOrderStatus PanelA.orderState true true "1" "whatever").1.orders =
      [{ PanelA.sampleOrder with status := "whatever" }] ∧
    specStatusEnum "whatever" = false := by
  refine ⟨?_, ?_, ?_⟩ <;> rfl

/-- C2 amended: order creation stores a status inside the spec's enum
(`"in progress"` in the file-backed panel, `"Pending"` in the serverless
variant); the admin status update — the only other order mutation — stores
the supplied status string verbatim with no validation, so after an accepted
update an order's status lies in the enum only when the request supplied an
enum value. -/
theorem order_status_discipline :
    (∀ (s : PanelA.PState) (sess : Option PanelA.SessUser)
      (pf sv lk pay note : Option String) (q : Option Nat)
      (scr : Option PanelA.Screenshot) (id t : String) (em : Bool),
      ∀ o ∈ (PanelA.placeOrder s sess pf sv lk pay note q scr id t em).1.orders,
        o ∈ s.orders ∨ (o.status = "in progress" ∧ specStatusEnum o.status = true)) ∧
    (∀ (store : PanelB.Store PanelB.BOrder) (pf sv un am pm pr : Option String)
      (id t method : String) (em : Bool),
      ∀ o ∈ PanelB.readJSON (PanelB.placeOrder store pf sv un am pm pr id t method em).1
          "orders.json",
        o ∈ PanelB.readJSON store "orders.json" ∨
          (o.status = "Pending" ∧ specStatusEnum o.status = true)) ∧
    (∀ (s : PanelA.PState) (li ad : Bool) (id st : String),
      ∀ o ∈ (PanelA.updateOrderStatus s li ad id st).1.orders,
        o ∈ s.orders ∨ o.status = st) := by
  refine ⟨?_, ?_, ?_⟩
  · intro s sess pf sv lk pay note q scr id t em o ho
    revert ho
    unfold PanelA.placeOrder
    cases sess with
    | none =>
      intro ho
      exact Or.inl ho
    | some su =>
      rcases PanelA.present pf with _ | x1
      · intro ho
        exact Or.inl ho
      rcases PanelA.present sv with _ | x2
      · intro ho
        exact Or.inl ho
      rcases PanelA.present lk with _ | x3
      · intro ho
        exact Or.inl ho
      rcases PanelA.present pay with _ | x4
      · intro ho
        exact Or.inl ho
      rcases q with _ | qv
      · intro ho
        exact Or.inl ho
      simp only []
      split
      · intro ho
        exact Or.inl ho
      · intro ho
        cases em with
        | true =>
          rcases List.mem_append.mp ho with ho | ho
          · exact Or.inl ho
          · rcases List.mem_singleton.mp ho with rfl
            exact Or.inr ⟨rfl, rfl⟩
        | false =>
          rcases List.mem_append.mp ho with ho | ho
          · exact Or.inl ho
          · rcases List.mem_singleton.mp ho with rfl
            exact Or.inr ⟨rfl, rfl⟩
  · intro store pf sv un am pm pr id t method em o ho
    revert ho
    unfold PanelB.placeOrder
    by_cases hm : method ≠ "POST"
    · rw [if_pos hm]
      intro ho
      exact Or.inl ho
    rw [if_neg hm]
    rcases PanelB.present pf with _ | x1
    · intro ho
      exact Or.inl ho
    rcases PanelB.present sv with _ | x2
    · intro ho
      exact Or.inl ho
    rcases PanelB.present un with _ | x3
    · intro ho
      exact Or.inl ho
    rcases PanelB.present am with _ | x4
    · intro ho
      exact Or.inl ho
    rcases PanelB.present pm with _ | x5
    · intro ho
      exact Or.inl ho
    rcases PanelB.present pr with _ | x6
    · intro ho
      exact Or.inl ho
    rw [PanelB.readJSON_writeJSON]
    intro ho
    rcases List.mem_append.mp ho with ho | ho
    · exact Or.inl ho
    · rcases List.mem_singleton.mp ho with rfl
      exact Or.inr ⟨rfl, rfl⟩
  · intro s li ad id st o ho
    revert ho
    unfold PanelA.updateOrderStatus
    split_ifs
    · intro ho
      exact Or.inl ho
    · intro ho
      exact Or.inl ho
    · cases hss : PanelA.setStatusFirst id st s.orders with
      | none =>
        intro ho
        exact Or.inl ho
      | some l2 =>
        intro ho
        exact PanelA.setStatusFirst_mem id st s.orders l2 hss o ho

/-- Witness for the C2 amended theorem: the concrete order stored after an
accepted update carries exactly the supplied status. -/
theorem order_status_discipline_witness :
    ({ PanelA.sampleOrder with status := "done" } : PanelA.AOrder) ∈ PanelA.orderState.orders ∨
    ({ PanelA.sampleOrder with status := "done" } : PanelA.AOrder).status = "done" :=
  order_status_discipline.2.2 PanelA.orderState true true "1" "done"
    { PanelA.sampleOrder with status := "done" } (by decide)

namespace PanelB

/-- Concrete stored user of the serverless variant. -/
def bobUser : BUser :=
  { id := "u2", username := "bob", name := "Bob", email := "b@x.com", password := "pw" }

/-- Concrete file store whose users file holds exactly `bobUser`. -/
def bobStore : Store BUser := fun f => if f = "users.json" then some [bobUser] else none

end PanelB

/-- C5: in both file-backed variants, a signup whose username or email is
already taken by a stored user fails with a 4xx response (400 in the
serverless variant, 409 in the express panel) and leaves the users
collection unchanged; consequently signup preserves pairwise uniqueness of
usernames and of emails among stored users. -/
theorem signup_unique :
    (∀ (store : PanelB.Store PanelB.BUser) (un nm em pw id : String),
      (∃ u ∈ PanelB.readJSON store "users.json", u.username = un ∨ u.email = em) →
      (PanelB.signup store un nm em pw id "POST").2.status = 400 ∧
      (PanelB.signup store un nm em pw id "POST").1 = store) ∧
    (∀ (s : PanelA.PState) (un nm em ph pw id hsh t : String),
      un ≠ "" → nm ≠ "" → em ≠ "" → ph ≠ "" → pw ≠ "" →
      (∃ u ∈ s.users, u.username = un ∨ u.email = em) →
      (PanelA.signup s (some un) (some nm) (some em) (some ph) (some pw) id hsh t).2 = 409 ∧
      (PanelA.signup s (some un) (some nm) (some em) (some ph) (some pw) id hsh t).1.users
        = s.users) ∧
    (∀ (store : PanelB.Store PanelB.BUser) (un nm em pw id method : String),
      (PanelB.readJSON store "users.json").Pairwise (fun a b => a.username ≠ b.username) →
      (PanelB.readJSON store "users.json").Pairwise (fun a b => a.email ≠ b.email) →
      (PanelB.readJSON (PanelB.signup store un nm em pw id method).1 "users.json").Pairwise
          (fun a b => a.username ≠ b.username) ∧
      (PanelB.readJSON (PanelB.signup store un nm em pw id method).1 "users.json").Pairwise
          (fun a b => a.email ≠ b.email)) ∧
    (∀ (s : PanelA.PState) (username name email phone password : Option String)
      (id hsh t : String),
      s.users.Pairwise (fun a b => a.username ≠ b.username) →
      s.users.Pairwise (fun a b => a.email ≠ b.email) →
      ((PanelA.signup s username name email phone password id hsh t).1.users).Pairwise
          (fun a b => a.username ≠ b.username) ∧
      ((PanelA.signup s username name email phone password id hsh t).1.users).Pairwise
          (fun a b => a.email ≠ b.email)) := by
  refine ⟨?_, ?_, ?_, ?_⟩
  · intro store un nm em pw id hdup
    unfold PanelB.signup
    rw [if_neg (by decide)]
    simp only []
    have hs : ((PanelB.readJSON store "users.json").find?
        (fun u => u.username == un || u.email == em)).isSome := by
      rw [List.find?_isSome]
      obtain ⟨u, hu, hcase⟩ := hdup
      refine ⟨u, hu, ?_⟩
      rcases hcase with h | h <;> simp [h]
    cases hf : (PanelB.readJSON store "users.json").find?
        (fun u => u.username == un || u.email == em) with
    | none =>
      rw [hf] at hs
      simp at hs
    | some u =>
      exact ⟨rfl, rfl⟩
  · intro s un nm em ph pw id hsh t hun hnm hem hph hpw hdup
    unfold PanelA.signup
    rw [show PanelA.present (some un) = some un by simp [PanelA.present, hun],
        show PanelA.present (some nm) = some nm by simp [PanelA.present, hnm],
        show PanelA.present (some em) = some em by simp [PanelA.present, hem],
        show PanelA.present (some ph) = some ph by simp [PanelA.present, hph],
        show PanelA.present (some pw) = some pw by simp [PanelA.present, hpw]]
    simp only []
    by_cases h1 : s.users.any (fun u => PanelA.jsToLower u.username == PanelA.jsToLower un) = true
    · rw [if_pos h1]
      exact ⟨rfl, rfl⟩
    · rw [if_neg h1]
      have h2 : s.users.any (fun u => PanelA.jsToLower u.email == PanelA.jsToLower em) = true := by
        obtain ⟨u, hu, hcase⟩ := hdup
        rcases hcase with hcase | hcase
        · exact absurd (List.any_eq_true.mpr ⟨u, hu, by simp [hcase]⟩) h1
        · exact List.any_eq_true.mpr ⟨u, hu, by simp [hcase]⟩
      rw [if_pos h2]
      exact ⟨rfl, rfl⟩
  · intro store un nm em pw id method hU hE
    unfold PanelB.signup
    by_cases hm : method ≠ "POST"
    · rw [if_pos hm]
      exact ⟨hU, hE⟩
    rw [if_neg hm]
    simp only []
    cases hf : (PanelB.readJSON store "users.json").find?
        (fun u => u.username == un || u.email == em) with
    | some u =>
      exact ⟨hU, hE⟩
    | none =>
      simp only []
      rw [PanelB.readJSON_writeJSON]
      have hall := List.find?_eq_none.mp hf
      constructor
      · rw [List.pairwise_append]
        refine ⟨hU, by simp, ?_⟩
        intro a ha b hb
        rcases List.mem_singleton.mp hb with rfl
        have hx := hall a ha
        simp only [Bool.or_eq_true, beq_iff_eq, not_or] at hx
        simp only []
        exact hx.1
      · rw [List.pairwise_append]
        refine ⟨hE, by simp, ?_⟩
        intro a ha b hb
        rcases List.mem_singleton.mp hb with rfl
        have hx := hall a ha
        simp only [Bool.or_eq_true, beq_iff_eq, not_or] at hx
        simp only []
        exact hx.2
  · intro s username name email phone password id hsh t hU hE
    unfold PanelA.signup
    rcases PanelA.present username with _ | un
    · exact ⟨hU, hE⟩
    rcases PanelA.present name with _ | nm
    · exact ⟨hU, hE⟩
    rcases PanelA.present email with _ | em
    · exact ⟨hU, hE⟩
    rcases PanelA.present phone with _ | ph
    · exact ⟨hU, hE⟩
    rcases PanelA.present password with _ | pw
    · exact ⟨hU, hE⟩
    simp only []
    split_ifs with h1 h2
    · exact ⟨hU, hE⟩
    · exact ⟨hU, hE⟩
    · constructor
      · rw [List.pairwise_append]
        refine ⟨hU, by simp, ?_⟩
        intro a ha b hb
        rcases List.mem_singleton.mp hb with rfl
        simp only []
        intro hEq
        exact h1 (List.any_eq_true.mpr ⟨a, ha, by simp [hEq]⟩)
      · rw [List.pairwise_append]
        refine ⟨hE, by simp, ?_⟩
        intro a ha b hb
        rcases List.mem_singleton.mp hb with rfl
        simp only []
        intro hEq
        exact h2 (List.any_eq_true.mpr ⟨a, ha, by simp [hEq]⟩)

/-- Witness for the C5 theorem: duplicate signups against the concrete
one-user states of both variants are rejected with the users unchanged. -/
theorem signup_unique_witness :
    ((PanelB.signup PanelB.bobStore "bob" "Bobby" "c@x.com" "pw2" "u9" "POST").2.status = 400 ∧
     (PanelB.signup PanelB.bobStore "bob" "Bobby" "c@x.com" "pw2" "u9" "POST").1 = PanelB.bobStore) ∧
    ((PanelA.signup PanelA.oneUserState (some "alice") (some "Al") (some "c@x.com") (some "2")
        (some "pw2") "u9" "H2" "t2").2 = 409 ∧
     (PanelA.signup PanelA.oneUserState (some "alice") (some "Al") (some "c@x.com") (some "2")
        (some "pw2") "u9" "H2" "t2").1.users = PanelA.oneUserState.users) :=
  ⟨signup_unique.1 PanelB.bobStore "bob" "Bobby" "c@x.com" "pw2" "u9"
      ⟨PanelB.bobUser, by decide, Or.inl rfl⟩,
   signup_unique.2.1 PanelA.oneUserState "alice" "Al" "c@x.com" "2" "pw2" "u9" "H2" "t2"
      (by decide) (by decide) (by decide) (by decide) (by decide)
      ⟨PanelA.aliceUser, by decide, Or.inl rfl⟩⟩
